import Mathlib

/-!
Shallow embedding of the browser-session orchestration subsystem of the
`gouyez/base` repository (files `core/gmail_api.py`, `core/chrome.py`,
`gmail_hybrid_manager.py`, `plugins/*`), together with theorems settling
the spec claims about it.  Pure logic (string transforms, dictionary
updates, loop control flow) is translated directly; I/O primitives
(sockets, HTTP requests, process handles) are modelled by explicit
environment records that list every outcome the wrapped Python call can
have, and the control flow around them is translated statement by
statement from the source.
-/

namespace GmailApi

/-- Python truthiness of an optional query-string value (`if error:` /
`elif code:` in `_OAuthHandler.do_GET`).  `urllib.parse.parse_qs` drops
blank values by default, but we keep the full truthiness test. -/
def truthy : Option String → Bool
  | none => false
  | some s => s ≠ ""

/-- The per-flow shared dict of `_oauth_once_with_session`: the two keys
the callback handler may write (`shared["code"]`, `shared["error"]`).
`none` models the key being absent. -/
structure Shared where
  code : Option String := none
  error : Option String := none
deriving DecidableEq, Repr

/-- One HTTP GET delivered to the loopback server: the request path and
the (first values of the) `code` and `error` query parameters. -/
structure Callback where
  path : String
  qsCode : Option String
  qsError : Option String
deriving DecidableEq, Repr

/-- `parsed.path not in ("/", "/callback")` check of `do_GET`. -/
def validPath (p : String) : Bool := p = "/" || p = "/callback"

/-- Effect of `_OAuthHandler.do_GET` on the flow's shared dict.
Translated from `core/gmail_api.py` lines 29-67: a bad path is answered
404 without touching the dict; otherwise `if error: shared["error"] =
error elif code: shared["code"] = code else: pass` — the writes are
unconditional, there is no first-write guard. -/
def do_GET (cb : Callback) (shared : Shared) : Shared :=
  if ¬ validPath cb.path then shared
  else if truthy cb.qsError then { shared with error := cb.qsError }
  else if truthy cb.qsCode then { shared with code := cb.qsCode }
  else shared

/-- Delivering a sequence of callbacks to the same flow, in order. -/
def deliver (cbs : List Callback) (s : Shared) : Shared :=
  cbs.foldl (fun s cb => do_GET cb s) s

/-- How many results the flow state currently records. -/
def Shared.recorded (s : Shared) : Nat :=
  (if s.code.isSome then 1 else 0) + (if s.error.isSome then 1 else 0)

end GmailApi

namespace Chrome

/-- Character filter of `_safe_email_token` (`core/chrome.py` line 74):
`c.isalnum() or c in ("@", ".", "_", "-")` (ASCII reading of
`str.isalnum`). -/
def keepChar (c : Char) : Bool :=
  c.isAlphanum || c = '@' || c = '.' || c = '_' || c = '-'

/-- `.replace("@", "_at_")` on the character list. -/
def replaceAt : List Char → List Char
  | [] => []
  | c :: cs => (if c = '@' then ['_', 'a', 't', '_'] else [c]) ++ replaceAt cs

/-- `.replace(".", "_")` on the character list. -/
def replaceDot : List Char → List Char
  | [] => []
  | c :: cs => (if c = '.' then ['_'] else [c]) ++ replaceDot cs

/-- `_safe_email_token` from `core/chrome.py`:
`"".join(c for c in email.lower() if c.isalnum() or c in ("@",".","_","-"))
  .replace("@","_at_").replace(".","_")`.
(`replace("@","_at_")` introduces no `.`, so performing the two
single-character replacements in sequence over the filtered, lowered
character list is the source computation verbatim.) -/
def safe_email_token (email : String) : String :=
  ⟨replaceDot (replaceAt ((email.data.map Char.toLower).filter keepChar))⟩

/-- `PROFILES_DIR` from `core/config.py` (an absolute directory; its
exact value does not matter for path-collision claims, only that it is
one fixed string). -/
def PROFILES_DIR : String := "AppData/Local/GmailHybrid/profiles"

/-- `profile_dir_for(email) = PROFILES_DIR / _safe_email_token(email)`. -/
def profile_dir_for (email : String) : String :=
  PROFILES_DIR ++ "/" ++ safe_email_token email

/-- State of the launched browser process, as observable from the
process table. -/
inductive ProcState
  | notStarted
  | running
  | terminated
deriving DecidableEq, Repr

/-- The `ChromeSession` dataclass (the `proc` handle is tracked
separately as a `ProcState`). -/
structure ChromeSessionM where
  email : String
  port : Nat
  ws_url : String
deriving DecidableEq, Repr

/-- Outcomes of the I/O primitives invoked by `start_chrome_session`
(`core/chrome.py` lines 97-149), one field per wrapped call. -/
structure StartEnv where
  /-- `websocket is not None` (import succeeded). -/
  websocketAvailable : Bool
  /-- value returned by `_find_free_port_tcp()`. -/
  port : Nat
  /-- `_find_chrome_executable` found a `chrome.exe` (clone or fallback). -/
  exeFound : Bool
  /-- `subprocess.Popen(cmd, ...)` did not raise. -/
  popenOk : Bool
  /-- `_wait_for_debug_endpoint(port, timeout=12)` returned True,
  i.e. `/json` answered 200 within the 12 s readiness window. -/
  debugReady : Bool
  /-- result of the 10 s `_create_new_tab_and_get_ws` polling loop:
  `some ws` if a target websocket URL was obtained, `none` if not. -/
  newTabWsUrl : Option String
  /-- `proc.terminate()` raised (its failure is swallowed by
  `except Exception: pass`, leaving the process running). -/
  terminateRaises : Bool
deriving DecidableEq, Repr

/-- What `start_chrome_session` leaves behind: the returned session (or
`None`), the launched process's state, and the log lines. -/
structure StartResult where
  session : Option ChromeSessionM
  proc : ProcState
  log : List String
deriving DecidableEq, Repr

/-- `try: proc.terminate() except Exception: pass` applied to a running
process. -/
def tryTerminate (env : StartEnv) : ProcState :=
  if env.terminateRaises then .running else .terminated

/-- `start_chrome_session` from `core/chrome.py` lines 97-149,
translated branch by branch over the primitive outcomes in `env`.
The initial `raise RuntimeError` when the websocket client is missing
is the only uncaught failure and is the `.error` case. -/
def start_chrome_session (env : StartEnv) (email : String) :
    Except String StartResult :=
  if ¬ env.websocketAvailable then .error "Missing websocket-client"
  else if ¬ env.exeFound then
    .ok ⟨none, .notStarted,
      ["[SESSION][ERROR] chrome.exe not found for cloning; ensure chrome_master or Chrome installed."]⟩
  else if ¬ env.popenOk then
    .ok ⟨none, .notStarted, ["[SESSION][ERROR] start chrome failed"]⟩
  else if ¬ env.debugReady then
    .ok ⟨none, tryTerminate env,
      ["[SESSION][ERROR] debug endpoint not ready on port"]⟩
  else
    match env.newTabWsUrl with
    | none => .ok ⟨none, tryTerminate env, []⟩
    | some ws =>
      .ok ⟨some ⟨email, env.port, ws⟩, .running, ["[SESSION] started"]⟩

/-- Outcomes of the I/O primitives invoked by `close_chrome_session`
(`core/chrome.py` lines 151-233), one field per wrapped call. -/
structure CloseEnv where
  /-- `webSocketDebuggerUrl` from `GET /json/version`; `none` when the
  request failed in any way (`_http_json` swallows every exception and
  returns `None`) or the field is absent. -/
  versionWsUrl : Option String
  /-- `websocket is not None`. -/
  websocketAvailable : Bool
  /-- `websocket.create_connection(ws_main, timeout=5)` succeeded. -/
  connectOk : Bool
  /-- the `Runtime.enable` / `Runtime.evaluate` sends raised (swallowed
  by `except Exception: pass`). -/
  sendEvalRaises : Bool
  /-- the `Browser.close` send raised. -/
  sendBrowserCloseRaises : Bool
  /-- `ws.close()` raised (swallowed). -/
  wsCloseRaises : Bool
  /-- `sess.proc.wait(timeout=6.0)` returned, i.e. the process exited
  on its own within 6 s. -/
  procWait6Exits : Bool
  /-- `sess.proc.terminate()` raised. -/
  terminateRaises : Bool
  /-- `sess.proc.wait(timeout=2.0)` returned after terminate. -/
  procWait2Exits : Bool
  /-- `sess.proc.kill()` raised. -/
  killRaises : Bool
deriving DecidableEq, Repr

/-- Step 2 of `close_chrome_session`: the graceful-close `try` block.
`create_connection` failure is caught by the block's own
`except Exception as e` (warn log); the two inner sends and `ws.close`
each sit in their own `try/except`, so their failures never escape. -/
def gracefulClose (env : CloseEnv) : List String :=
  match (if env.connectOk then Except.ok () else Except.error "connect refused" :
      Except String Unit) with
  | .error _ => ["[SESSION][WARN] websocket graceful close failed"]
  | .ok _ =>
    ["[SESSION] waiting for Chrome to flush cookies/state"] ++
      (match (if env.sendBrowserCloseRaises then Except.error "send failed" else Except.ok () :
          Except String Unit) with
      | .ok _ => ["[SESSION] sent Browser.close command."]
      | .error _ => ["[SESSION][WARN] Browser.close failed"])

/-- `close_chrome_session` from `core/chrome.py` lines 151-233,
translated statement by statement.  The result is the log transcript;
the `Except` layer records whether any exception escaped to the caller
(every primitive failure in `env` is routed through the `try/except`
structure of the source). -/
def close_chrome_session (env : CloseEnv) (sess : Option ChromeSessionM) :
    Except String (List String) :=
  match sess with
  | none => .ok ["[SESSION][WARN] close_chrome_session called with None"]
  | some _ =>
    -- Step 1: ws_main from `/json/version`; `_http_json` never raises.
    let ws_main : Option String := env.versionWsUrl
    -- Step 2: graceful close, or the no-debugger fallback log.
    let log1 : List String :=
      if ws_main.isSome && env.websocketAvailable then gracefulClose env
      else ["[SESSION][WARN] no websocket debugger; using process terminate fallback."]
    -- Step 3: wait up to 6 s; a timeout is caught by `except: pass`.
    if env.procWait6Exits then
      .ok (log1 ++ ["[SESSION] Chrome exited cleanly."])
    else
      -- Step 4: terminate, then kill; the final `except` only logs.
      let log2 := log1 ++ ["[SESSION] Chrome not exiting, forcing terminate."]
      if !env.terminateRaises && env.procWait2Exits then .ok log2
      else
        let log3 := log2 ++ ["[SESSION][WARN] terminate failed, forcing kill."]
        if env.killRaises then
          .ok (log3 ++ ["[SESSION][ERROR] could not kill process"])
        else .ok log3

/-- One iteration outcome of the `while time.time() < deadline` receive
loop in `cdp_navigate`; the list of frames a run sees is the sequence
of iterations that happen before the deadline elapses. -/
inductive Frame
  /-- `ws.recv()` raised: the loop sleeps 50 ms and continues. -/
  | recvRaises
  /-- `json.loads(raw)` raised: the loop continues. -/
  | unparseable
  /-- `json.loads` succeeded but produced a non-dict value (number,
  string, list, ...): `m.get("method")` then raises `AttributeError`,
  which is caught only by the outer handler that sets `ok = False`. -/
  | nonObject
  /-- a JSON object, with its `method` field when present (responses
  carry an `id` and no `method`; events carry a `method`). -/
  | object (method : Option String)
deriving DecidableEq, Repr

/-- `m.get("method") == "Page.loadEventFired"` on an object frame. -/
def isLoadEvent : Frame → Bool
  | .object (some m) => m = "Page.loadEventFired"
  | _ => false

/-- The `wait_load` receive loop of `cdp_navigate` (`core/chrome.py`
lines 259-273): returns the final value of `ok`.  List exhaustion is
the deadline elapsing with `ok` still `False`. -/
def waitForLoad : List Frame → Bool
  | [] => false
  | .nonObject :: _ => false
  | f :: rest => if isLoadEvent f then true else waitForLoad rest

/-- Frames that end the receive loop of `cdp_navigate`: a matching
`Page.loadEventFired` event (ends it with success) or a parseable
non-object frame (the uncaught `AttributeError` ends it with failure). -/
def stopsWait (f : Frame) : Bool :=
  isLoadEvent f || f == Frame.nonObject

/-- Outcomes of the primitives invoked by `cdp_navigate`. -/
structure NavEnv where
  /-- `websocket is not None`. -/
  websocketAvailable : Bool
  /-- `websocket.create_connection(ws_url, timeout=8)` succeeded. -/
  connectOk : Bool
  /-- the `Page.enable` / `Page.navigate` sends raised (caught by the
  outer handler, which sets `ok = False`). -/
  sendRaises : Bool
  /-- the receive-loop iterations occurring before the deadline. -/
  frames : List Frame
deriving DecidableEq, Repr

/-- `cdp_navigate` from `core/chrome.py` lines 237-286 (the boolean it
returns; the trailing 0.2 s sleep and `ws.close()` have no observable
result). -/
def cdp_navigate (env : NavEnv) (wait_load : Bool) : Bool :=
  if ¬ env.websocketAvailable then false
  else if ¬ env.connectOk then false
  else if env.sendRaises then false
  else if wait_load then waitForLoad env.frames
  else true

end Chrome

namespace GmailApi

/-- Outcomes of the two possible `_oauth_once_with_session` runs made
by `oauth_first_login_in_session`: each attempt either returns
credentials (abstracted to a `Nat` handle) or raises. -/
structure OauthEnv where
  attempt1 : Except String Nat
  attempt2 : Except String Nat
deriving Repr

/-- `oauth_first_login_in_session` from `core/gmail_api.py` lines
153-159: one try, and on any exception a single retry after a 2 s
sleep, whose outcome is returned unprotected.  The second component
counts how many times `_oauth_once_with_session` ran. -/
def oauth_first_login_in_session (env : OauthEnv) :
    Except String Nat × Nat :=
  match env.attempt1 with
  | .ok creds => (.ok creds, 1)
  | .error _ => (env.attempt2, 2)

/-- One page of the paged list call in `search_messages`: either
`req.execute()` returned a response whose `resp.get("messages")` is the
given optional list (message references abstracted to `Nat`), or it
raised. -/
inductive Page
  | ok (msgs : Option (List Nat))
  | err
deriving DecidableEq, Repr

/-- Python truthiness of `resp.get("messages")`: `None` and `[]` are
falsy. -/
def truthyMsgs : Option (List Nat) → Bool
  | none => false
  | some l => !l.isEmpty

/-- The `while req:` loop of `search_messages` (`core/gmail_api.py`
lines 203-214), accumulating into `messages`.  List exhaustion is
`list_next` returning `None`; a `Page.err` is the `except` branch,
which keeps whatever was collected. -/
def searchLoop (maxResults : Nat) : List Page → List Nat → List Nat
  | [], messages => messages
  | .err :: _, messages => messages
  | .ok resp :: rest, messages =>
    let messages := if truthyMsgs resp then messages ++ resp.getD [] else messages
    if maxResults ≤ messages.length then messages else searchLoop maxResults rest messages

/-- `search_messages` from `core/gmail_api.py` lines 200-218: run the
paged loop from an empty accumulator and return `messages[:max_results]`. -/
def search_messages (pages : List Page) (maxResults : Nat) : List Nat :=
  (searchLoop maxResults pages []).take maxResults

end GmailApi

namespace Manager

/-- Observable events of one orchestrator run (calls into the session
manager, the OAuth flow and the plugins, plus log lines). -/
inductive Ev
  | startChrome (email : String)
  | oauthFlow (email : String)
  | runAction (email : String) (plugin : String)
  | actionFailed (email : String) (plugin : String)
  | releaseSession (email : String)
  | keptOpen (email : String)
  | note (msg : String)
deriving DecidableEq, Repr

/-- The static plugin data the orchestrator reads (`plugins/base.py`:
`name`, `group`, `keep_open_after_run`). -/
structure PluginM where
  name : String
  group : String
  keepOpenAfterRun : Bool
deriving DecidableEq, Repr

/-- Per-account outcomes of the fallible calls `_process_one_account`
makes (`gmail_hybrid_manager.py` lines 331-404). -/
structure AccountEnv where
  /-- `start_chrome_session` returned a session (not `None`). -/
  startOk : Bool
  /-- `load_credentials_for` returned without raising. -/
  credsOk : Bool
  /-- `oauth_first_login_in_session` returned without raising. -/
  oauthOk : Bool
  /-- `build_gmail_service` returned without raising. -/
  gmailBuildOk : Bool
  /-- `build_people_service` returned without raising (its failure is
  caught and only nulls `people_service`). -/
  peopleBuildOk : Bool
  /-- whether `p.run(ctx)` raises, per plugin name, for this account. -/
  runRaises : String → Bool

/-- `requires_chrome = any(p.group == "chrome" for p in plugins)`. -/
def requiresChrome (plugins : List PluginM) : Bool :=
  plugins.any (fun p => p.group == "chrome")

/-- The action loop of `_process_one_account` (lines 373-393): each
plugin's `run` is wrapped in its own `try/except`, and `keep_open` is
updated only after `p.run(ctx)` returned without raising.  Returns the
trace and the final `keep_open` flag. -/
def runActions (env : AccountEnv) (email : String) :
    List PluginM → Bool → List Ev × Bool
  | [], keepOpen => ([], keepOpen)
  | p :: rest, keepOpen =>
    if env.runRaises p.name then
      let r := runActions env email rest keepOpen
      (Ev.runAction email p.name :: Ev.actionFailed email p.name :: r.1, r.2)
    else
      let r := runActions env email rest (keepOpen || p.keepOpenAfterRun)
      (Ev.runAction email p.name :: r.1, r.2)

/-- Tail of `_process_one_account` after credentials are resolved:
service builds (lines 360-371), the action loop, and the keep-open /
release decision (lines 395-402). -/
def afterCreds (env : AccountEnv) (email : String) (plugins : List PluginM)
    (hasSess : Bool) : List Ev :=
  if ¬ env.gmailBuildOk then
    Ev.note "[GMAIL][ERROR] service build" ::
      (if hasSess then [Ev.releaseSession email] else [])
  else
    let r := runActions env email plugins false
    r.1 ++
      (if hasSess then
        if r.2 then [Ev.keptOpen email]
        else [Ev.releaseSession email, Ev.note "[SESSION] closed"]
      else [Ev.note "[SESSION] no Chrome session to close"])

/-- Credential stage of `_process_one_account` (lines 346-358):
persisted credentials, else the in-session OAuth fallback when a
session exists, else abort this account.  `hasSess` holds exactly when
Chrome was required and started, so it coincides with the source's
`requires_chrome and sess` test. -/
def credsStage (env : AccountEnv) (email : String) (plugins : List PluginM)
    (hasSess : Bool) : List Ev :=
  if env.credsOk then afterCreds env email plugins hasSess
  else
    Ev.note "[TOKEN] missing/invalid" ::
      (if hasSess then
        if env.oauthOk then Ev.oauthFlow email :: afterCreds env email plugins hasSess
        else [Ev.oauthFlow email, Ev.note "[OAUTH][FATAL]", Ev.releaseSession email]
      else [])

/-- `_process_one_account` from `gmail_hybrid_manager.py` lines
331-404, as the trace of events it produces for one account. -/
def process_one_account (env : AccountEnv) (email : String)
    (plugins : List PluginM) : List Ev :=
  if requiresChrome plugins then
    if env.startOk then Ev.startChrome email :: credsStage env email plugins true
    else [Ev.startChrome email,
          Ev.note "[SESSION][FATAL] could not start chrome for account."]
  else
    Ev.note "[SESSION] Chrome not required." :: credsStage env email plugins false

/-- `run_processing_parallel` (lines 285-329): after the empty-input
guards, every account is submitted to the pool with the same `enabled`
list; each worker's exception is caught at `f.result()`, so every
account's trace is produced regardless of the others. -/
def run_processing_parallel (accounts : List String) (enabled : List PluginM)
    (envOf : String → AccountEnv) : List Ev :=
  if accounts.isEmpty then [Ev.note "[INPUT] No accounts provided."]
  else if enabled.isEmpty then [Ev.note "[PLUGIN] No actions selected."]
  else (accounts.map (fun e => process_one_account (envOf e) e enabled)).flatten

/-- The guard conditions under which `_process_one_account` reaches its
action loop: the session started when one was required, credentials
resolved (persisted, or via the in-session OAuth fallback), and the
Gmail service built. -/
def reachesActions (env : AccountEnv) (plugins : List PluginM) : Bool :=
  (!requiresChrome plugins || env.startOk) &&
  (env.credsOk || (requiresChrome plugins && env.startOk && env.oauthOk)) &&
  env.gmailBuildOk

end Manager

/-! ## Theorems -/

namespace GmailApi

theorem truthy_isSome {o : Option String} (h : truthy o = true) : o.isSome = true := by
  cases o <;> simp [truthy] at *

/-- C1 (counterexample): the callback handler has no first-write guard:
delivering a code callback and then an error callback to the same flow
leaves BOTH results recorded, refuting "exactly one result is recorded,
never both". -/
theorem c1_counterexample :
    (deliver [⟨"/callback", some "abc123", none⟩,
              ⟨"/callback", none, some "access_denied"⟩] {}).recorded = 2 := by
  decide

/-- C1 (amended): a single code-or-error callback delivered to a flow
with no recorded result records exactly one result, and no delivery
ever erases an already-recorded result; the handler does not reject
later writes, so a later callback can add a second result (see the
counterexample). -/
theorem c1_single_delivery (cb cb' : Callback) (s : Shared)
    (hp : validPath cb.path = true)
    (hx : truthy cb.qsError = true ∨ truthy cb.qsCode = true) :
    (do_GET cb {}).recorded = 1 ∧
      (1 ≤ s.recorded → 1 ≤ (do_GET cb' s).recorded) := by
  constructor
  · rcases hx with hx | hx
    · simp [do_GET, hp, hx, Shared.recorded, truthy_isSome hx]
    · by_cases he : truthy cb.qsError = true
      · simp [do_GET, hp, he, Shared.recorded, truthy_isSome he]
      · simp [do_GET, hp, he, hx, Shared.recorded, truthy_isSome hx]
  · intro h1
    unfold do_GET
    split_ifs with h h2 h3 <;>
      simp_all [Shared.recorded, truthy_isSome]

/-- C1 (witness for the amended theorem). -/
theorem c1_single_delivery_witness :
    validPath "/callback" = true ∧
    (do_GET ⟨"/callback", some "abc123", none⟩ {}).recorded = 1 ∧
      (1 ≤ (Shared.mk (some "x") none).recorded →
        1 ≤ (do_GET ⟨"/", none, some "denied"⟩ (Shared.mk (some "x") none)).recorded) := by
  refine ⟨by decide, ?_⟩
  exact c1_single_delivery ⟨"/callback", some "abc123", none⟩ ⟨"/", none, some "denied"⟩
    (Shared.mk (some "x") none) (by decide) (Or.inr (by decide))

end GmailApi

namespace Chrome

theorem lower_digit_char_facts (c : Char)
    (h : c.isLower = true ∨ c.isDigit = true) :
    c.toLower = c ∧ keepChar c = true ∧ c ≠ '@' ∧ c ≠ '.' := by
  have h' : (97 ≤ c.val.toNat ∧ c.val.toNat ≤ 122) ∨
      (48 ≤ c.val.toNat ∧ c.val.toNat ≤ 57) := by
    simpa [Char.isLower, Char.isDigit, UInt32.le_def] using h
  refine ⟨?_, ?_, ?_, ?_⟩
  · unfold Char.toLower
    rw [if_neg]
    simp only [Char.toNat]
    omega
  · rcases h with h | h <;> simp [keepChar, Char.isAlphanum, Char.isAlpha, h]
  · rintro rfl; revert h'; simp [UInt32.size]
  · rintro rfl; revert h'; simp [UInt32.size]

theorem replaceAt_id {l : List Char} (h : ∀ c ∈ l, c ≠ '@') : replaceAt l = l := by
  induction l with
  | nil => rfl
  | cons c cs ih =>
    have hc : c ≠ '@' := h c (List.mem_cons_self ..)
    simp [replaceAt, hc, ih (fun x hx => h x (List.mem_cons_of_mem _ hx))]

theorem replaceDot_id {l : List Char} (h : ∀ c ∈ l, c ≠ '.') : replaceDot l = l := by
  induction l with
  | nil => rfl
  | cons c cs ih =>
    have hc : c ≠ '.' := h c (List.mem_cons_self ..)
    simp [replaceDot, hc, ih (fun x hx => h x (List.mem_cons_of_mem _ hx))]

theorem safe_email_token_id (s : String)
    (h : ∀ c ∈ s.data, c.isLower = true ∨ c.isDigit = true) :
    safe_email_token s = s := by
  unfold safe_email_token
  have hmap : s.data.map Char.toLower = s.data := by
    rw [List.map_congr_left (fun c hc => (lower_digit_char_facts c (h c hc)).1)]
    exact List.map_id _
  rw [hmap]
  have hfil : s.data.filter keepChar = s.data :=
    List.filter_eq_self.mpr (fun c hc => (lower_digit_char_facts c (h c hc)).2.1)
  rw [hfil]
  rw [replaceAt_id (fun c hc => (lower_digit_char_facts c (h c hc)).2.2.1)]
  rw [replaceDot_id (fun c hc => (lower_digit_char_facts c (h c hc)).2.2.2)]

/-- C2 (counterexample): the sanitizing transform is not
collision-resistant: the distinct raw identifiers `"a.b@x.com"` and
`"a_b@x_com"` derive the same cloned-profile directory path. -/
theorem c2_counterexample :
    profile_dir_for "a.b@x.com" = profile_dir_for "a_b@x_com" ∧
      "a.b@x.com" ≠ "a_b@x_com" := by
  decide

/-- C2 (amended): the path is derived deterministically, and the map
from accountId to profile path is injective on identifiers consisting
only of lowercase letters and digits; distinct raw identifiers in
general can collide (see the counterexample). -/
theorem c2_injective_on_lower_alnum (e₁ e₂ : String)
    (h₁ : ∀ c ∈ e₁.data, c.isLower = true ∨ c.isDigit = true)
    (h₂ : ∀ c ∈ e₂.data, c.isLower = true ∨ c.isDigit = true)
    (hp : profile_dir_for e₁ = profile_dir_for e₂) :
    e₁ = e₂ := by
  unfold profile_dir_for at hp
  rw [safe_email_token_id e₁ h₁, safe_email_token_id e₂ h₂] at hp
  have := congrArg String.data hp
  simp only [String.data_append] at this
  exact String.ext (List.append_cancel_left this)

/-- C2 (witness for the amended theorem). -/
theorem c2_injective_witness :
    (∀ c ∈ ("alice7" : String).data, c.isLower = true ∨ c.isDigit = true) ∧
    (profile_dir_for "alice7" = profile_dir_for "alice7" → "alice7" = "alice7") :=
  ⟨by decide, fun hp => c2_injective_on_lower_alnum "alice7" "alice7"
    (by decide) (by decide) hp⟩

end Chrome

namespace Chrome

/-- C3: `close_chrome_session` never propagates an exception to its
caller — for every combination of primitive failures (unreachable
endpoint, failing websocket, a process that refuses to exit, a raising
terminate or kill) and for a `None` session, it returns normally with
its log transcript. -/
theorem c3_close_never_raises (env : CloseEnv) (sess : Option ChromeSessionM) :
    ∃ log, close_chrome_session env sess = .ok log := by
  cases sess with
  | none => exact ⟨_, rfl⟩
  | some s =>
    unfold close_chrome_session
    split_ifs <;> exact ⟨_, rfl⟩

/-- C4: if the debug HTTP endpoint never answers 200 within the 12 s
readiness wait, `start_chrome_session` terminates the process it
launched and returns `None` (the failure outcome), leaving no running
process behind (provided `terminate()` itself does not raise, the case
its `try/except Exception: pass` guards). -/
theorem c4_launch_timeout_terminates (env : StartEnv) (email : String)
    (hws : env.websocketAvailable = true) (hexe : env.exeFound = true)
    (hpopen : env.popenOk = true) (hready : env.debugReady = false)
    (hterm : env.terminateRaises = false) :
    ∃ log, start_chrome_session env email =
      .ok ⟨none, ProcState.terminated, log⟩ := by
  unfold start_chrome_session tryTerminate
  simp [hws, hexe, hpopen, hready, hterm]

/-- C4 (witness). -/
theorem c4_launch_timeout_witness :
    (StartEnv.mk true 9222 true true false none false).debugReady = false ∧
    ∃ log, start_chrome_session (StartEnv.mk true 9222 true true false none false)
      "user1" = .ok ⟨none, ProcState.terminated, log⟩ :=
  ⟨rfl, c4_launch_timeout_terminates _ "user1" rfl rfl rfl rfl rfl⟩

theorem waitForLoad_eq_find (fs : List Frame) :
    waitForLoad fs =
      (match fs.find? stopsWait with
        | some f => isLoadEvent f
        | none => false) := by
  induction fs with
  | nil => rfl
  | cons f rest ih =>
    cases f with
    | nonObject => simp [waitForLoad, List.find?, stopsWait, isLoadEvent]
    | recvRaises => simpa [waitForLoad, List.find?, stopsWait, isLoadEvent] using ih
    | unparseable => simpa [waitForLoad, List.find?, stopsWait, isLoadEvent] using ih
    | object m =>
      by_cases hm : isLoadEvent (Frame.object m) = true
      · simp [waitForLoad, List.find?, stopsWait, hm]
      · have : stopsWait (Frame.object m) = false := by
          simp [stopsWait]
          simpa using hm
        simp only [Bool.not_eq_true] at hm
        simpa [waitForLoad, List.find?, this, hm] using ih

/-- C8 (counterexample): the wait does NOT succeed whenever a
`Page.loadEventFired` message arrives before the deadline: a parseable
non-object frame (here a bare JSON number) makes `m.get("method")`
raise, the outer handler sets `ok = False`, and the wait ends in
failure even though the matching event is the very next message —
refuting both directions of the claimed iff ("discarded without ending
the wait"). -/
theorem c8_counterexample :
    cdp_navigate
      ⟨true, true, false,
        [Frame.nonObject, Frame.object (some "Page.loadEventFired")]⟩ true = false ∧
    Frame.object (some "Page.loadEventFired") ∈
      [Frame.nonObject, Frame.object (some "Page.loadEventFired")] := by
  decide

/-- C8 (amended): with `wait_load` and a healthy connection, the wait
succeeds iff the first loop-ending frame in the pre-deadline stream is
a `Page.loadEventFired` event message; messages that end the loop are
exactly that event and parseable non-object frames (which end it with
failure), while id-bearing responses, other events, receive errors and
unparseable frames are read and discarded without ending the wait. -/
theorem c8_wait_load (env : NavEnv) (g : Frame)
    (hws : env.websocketAvailable = true) (hc : env.connectOk = true)
    (hs : env.sendRaises = false) (hg : stopsWait g = false) :
    (cdp_navigate env true =
      (match env.frames.find? stopsWait with
        | some f => isLoadEvent f
        | none => false)) ∧
    waitForLoad (g :: env.frames) = waitForLoad env.frames := by
  constructor
  · simp [cdp_navigate, hws, hc, hs, waitForLoad_eq_find]
  · cases g with
    | nonObject => simp [stopsWait] at hg
    | recvRaises => simp [waitForLoad, isLoadEvent]
    | unparseable => simp [waitForLoad, isLoadEvent]
    | object m =>
      have : isLoadEvent (Frame.object m) = false := by
        simp [stopsWait] at hg
        exact hg
      simp [waitForLoad, this]

/-- C8 (witness for the amended theorem). -/
theorem c8_wait_load_witness :
    stopsWait (Frame.object (some "Target.targetCreated")) = false ∧
    (cdp_navigate
        ⟨true, true, false,
          [Frame.recvRaises, Frame.object none,
           Frame.object (some "Page.loadEventFired")]⟩ true =
      (match [Frame.recvRaises, Frame.object none,
              Frame.object (some "Page.loadEventFired")].find? stopsWait with
        | some f => isLoadEvent f
        | none => false)) ∧
    waitForLoad (Frame.object (some "Target.targetCreated") ::
        [Frame.recvRaises, Frame.object none,
         Frame.object (some "Page.loadEventFired")]) =
      waitForLoad [Frame.recvRaises, Frame.object none,
        Frame.object (some "Page.loadEventFired")] :=
  ⟨by decide,
    c8_wait_load
      ⟨true, true, false,
        [Frame.recvRaises, Frame.object none,
         Frame.object (some "Page.loadEventFired")]⟩
      (Frame.object (some "Target.targetCreated")) rfl rfl rfl (by decide)⟩

end Chrome

namespace GmailApi

/-- C7: the authorization-flow wrapper makes exactly one attempt when
the first succeeds (returning its credentials), and otherwise exactly
one re-attempt, whose outcome — success or the second exception — is
returned to the caller unprotected; there is never a third attempt. -/
theorem c7_oauth_single_retry (env : OauthEnv) :
    ((oauth_first_login_in_session env).2 = 1 ∧
      (oauth_first_login_in_session env).1 = env.attempt1) ∨
    ((oauth_first_login_in_session env).2 = 2 ∧
      (∃ e, env.attempt1 = .error e) ∧
      (oauth_first_login_in_session env).1 = env.attempt2) := by
  cases h : env.attempt1 with
  | ok c => exact Or.inl (by simp [oauth_first_login_in_session, h])
  | error e => exact Or.inr (by simp [oauth_first_login_in_session, h])

theorem searchLoop_err (maxResults : Nat) (post : List Page) :
    ∀ (pre : List Page) (acc : List Nat), Page.err ∉ pre →
      searchLoop maxResults (pre ++ Page.err :: post) acc =
        searchLoop maxResults pre acc := by
  intro pre
  induction pre with
  | nil => intro acc _; rfl
  | cons p rest ih =>
    intro acc hp
    cases p with
    | err => exact absurd (List.mem_cons_self ..) hp
    | ok resp =>
      have hrest : Page.err ∉ rest := fun h => hp (List.mem_cons_of_mem _ h)
      simp only [List.cons_append, searchLoop]
      split_ifs <;> first
        | rfl
        | exact ih _ hrest

/-- C10: `search_messages` returns at most `max_results` message
references, and when the paged call raises at some page boundary the
exception is caught and the messages collected from the pages before it
are returned (exactly what a run over those pages alone would return),
not propagated. -/
theorem c10_search_messages (pages pre post : List Page) (maxResults : Nat)
    (hpre : Page.err ∉ pre) :
    (search_messages pages maxResults).length ≤ maxResults ∧
    search_messages (pre ++ Page.err :: post) maxResults =
      search_messages pre maxResults := by
  constructor
  · simp [search_messages, List.length_take]
  · unfold search_messages
    rw [searchLoop_err maxResults post pre [] hpre]

/-- C10 (witness). -/
theorem c10_search_messages_witness :
    Page.err ∉ [Page.ok (some [1, 2, 3])] ∧
    ((search_messages [Page.ok (some [1, 2, 3])] 2).length ≤ 2 ∧
      search_messages ([Page.ok (some [1, 2, 3])] ++ Page.err :: [Page.ok (some [4])]) 2 =
        search_messages [Page.ok (some [1, 2, 3])] 2) :=
  ⟨by decide,
    c10_search_messages [Page.ok (some [1, 2, 3])] [Page.ok (some [1, 2, 3])]
      [Page.ok (some [4])] 2 (by decide)⟩

end GmailApi

namespace Manager

theorem runActions_trace_const (env : AccountEnv) (email : String) :
    ∀ (ps : List PluginM) (k k' : Bool),
      (runActions env email ps k).1 = (runActions env email ps k').1 := by
  intro ps
  induction ps with
  | nil => intro k k'; rfl
  | cons q rest ih =>
    intro k k'
    by_cases hr : env.runRaises q.name = true <;> simp [runActions, hr] <;> exact ih _ _

theorem runActions_events (env : AccountEnv) (email : String) :
    ∀ (ps : List PluginM) (k : Bool), ∀ e ∈ (runActions env email ps k).1,
      ∃ s, e = Ev.runAction email s ∨ e = Ev.actionFailed email s := by
  intro ps
  induction ps with
  | nil => intro k e he; simp [runActions] at he
  | cons q rest ih =>
    intro k e he
    by_cases hr : env.runRaises q.name = true
    · simp [runActions, hr] at he
      rcases he with he | he | he
      · exact ⟨q.name, Or.inl he⟩
      · exact ⟨q.name, Or.inr he⟩
      · exact ih _ e he
    · simp [runActions, hr] at he
      rcases he with he | he
      · exact ⟨q.name, Or.inl he⟩
      · exact ih _ e he

theorem runActions_attempts (env : AccountEnv) (email : String) :
    ∀ (ps : List PluginM) (k : Bool), ∀ p ∈ ps,
      Ev.runAction email p.name ∈ (runActions env email ps k).1 ∧
      (env.runRaises p.name = true →
        Ev.actionFailed email p.name ∈ (runActions env email ps k).1) := by
  intro ps
  induction ps with
  | nil => intro k p hp; cases hp
  | cons q rest ih =>
    intro k p hp
    rcases List.mem_cons.mp hp with rfl | hp'
    · by_cases hr : env.runRaises p.name = true
      · exact ⟨by simp [runActions, hr], fun _ => by simp [runActions, hr]⟩
      · refine ⟨by simp [runActions, hr], fun hcon => absurd hcon hr⟩
    · by_cases hr : env.runRaises q.name = true
      · have h2 := ih k p hp'
        refine ⟨?_, fun hz => ?_⟩ <;> simp [runActions, hr] <;> tauto
      · have h2 := ih (k || q.keepOpenAfterRun) p hp'
        refine ⟨?_, fun hz => ?_⟩ <;> simp [runActions, hr] <;> tauto

theorem runActions_keep (env : AccountEnv) (email : String) :
    ∀ (ps : List PluginM) (k : Bool),
      (runActions env email ps k).2 =
        (k || ps.any (fun p => !env.runRaises p.name && p.keepOpenAfterRun)) := by
  intro ps
  induction ps with
  | nil => intro k; simp [runActions]
  | cons q rest ih =>
    intro k
    by_cases hr : env.runRaises q.name = true
    · simp [runActions, hr, ih]
    · simp only [runActions, hr, if_neg, Bool.false_eq_true, ih, List.any_cons]
      simp [hr, Bool.or_assoc]

/-- Under the guards of `reachesActions`, the per-account trace is a
prefix of session/oauth/log events followed by `afterCreds`. -/
theorem process_trace_afterCreds (env : AccountEnv) (email : String)
    (plugins : List PluginM) (hreach : reachesActions env plugins = true) :
    ∃ pre : List Ev,
      process_one_account env email plugins =
        pre ++ afterCreds env email plugins (requiresChrome plugins) ∧
      ∀ e ∈ pre, e = Ev.startChrome email ∨ e = Ev.oauthFlow email ∨
        ∃ m, e = Ev.note m := by
  cases hreq : requiresChrome plugins with
  | true =>
    have hstart : env.startOk = true := by
      simp [reachesActions, hreq] at hreach; tauto
    by_cases hcreds : env.credsOk = true
    · refine ⟨[Ev.startChrome email], ?_, ?_⟩
      · simp [process_one_account, hreq, hstart, credsStage, hcreds]
      · intro e he
        rw [List.mem_singleton] at he
        subst he; tauto
    · have hoauth : env.oauthOk = true := by
        simp [reachesActions, hreq, hstart, hcreds] at hreach; tauto
      refine ⟨[Ev.startChrome email, Ev.note "[TOKEN] missing/invalid",
        Ev.oauthFlow email], ?_, ?_⟩
      · simp [process_one_account, hreq, hstart, credsStage, hcreds, hoauth]
      · intro e he
        simp only [List.mem_cons, List.not_mem_nil, or_false] at he
        rcases he with rfl | rfl | rfl
        · tauto
        · exact Or.inr (Or.inr ⟨_, rfl⟩)
        · tauto
  | false =>
    have hcreds : env.credsOk = true := by
      simp [reachesActions, hreq] at hreach; tauto
    refine ⟨[Ev.note "[SESSION] Chrome not required."], ?_, ?_⟩
    · simp [process_one_account, hreq, credsStage, hcreds]
    · intro e he
      rw [List.mem_singleton] at he
      subst he; exact Or.inr (Or.inr ⟨_, rfl⟩)

/-- Unfolding of the post-credential stage when the Gmail service
builds. -/
theorem afterCreds_unfold (env : AccountEnv) (email : String)
    (plugins : List PluginM) (hasSess : Bool)
    (hg : env.gmailBuildOk = true) :
    afterCreds env email plugins hasSess =
      (runActions env email plugins false).1 ++
        (if hasSess then
          if (runActions env email plugins false).2 then [Ev.keptOpen email]
          else [Ev.releaseSession email, Ev.note "[SESSION] closed"]
        else [Ev.note "[SESSION] no Chrome session to close"]) := by
  simp [afterCreds, hg]

end Manager

namespace Manager

/-- When no enabled action is in the chrome group, the per-account
trace contains no session acquisition and no OAuth flow. -/
theorem no_session_events (env : AccountEnv) (email email' : String)
    (plugins : List PluginM) (hreq : requiresChrome plugins = false) :
    Ev.startChrome email' ∉ process_one_account env email plugins ∧
    Ev.oauthFlow email' ∉ process_one_account env email plugins := by
  have hr1 := runActions_events env email plugins false
  constructor <;>
    · intro hmem
      by_cases hc : env.credsOk = true
      · by_cases hgb : env.gmailBuildOk = true
        · simp [process_one_account, hreq, credsStage, hc, afterCreds, hgb,
            List.mem_append] at hmem
          rcases hr1 _ hmem with ⟨s, h | h⟩ <;> simp at h
        · simp [process_one_account, hreq, credsStage, hc, afterCreds, hgb] at hmem
      · simp [process_one_account, hreq, credsStage, hc] at hmem

/-- C5: for an account run with a live session that reaches the action
loop, the orchestrator keeps the session open (and logs it) exactly
when some successfully executed action has `keep_open_after_run`, and
releases it exactly when none has. -/
theorem c5_keep_open (env : AccountEnv) (email : String) (plugins : List PluginM)
    (hreq : requiresChrome plugins = true)
    (hreach : reachesActions env plugins = true) :
    (plugins.any (fun p => !env.runRaises p.name && p.keepOpenAfterRun) = true →
      Ev.keptOpen email ∈ process_one_account env email plugins ∧
      Ev.releaseSession email ∉ process_one_account env email plugins) ∧
    (plugins.any (fun p => !env.runRaises p.name && p.keepOpenAfterRun) = false →
      Ev.releaseSession email ∈ process_one_account env email plugins ∧
      Ev.keptOpen email ∉ process_one_account env email plugins) := by
  obtain ⟨pre, hdec, hpre⟩ := process_trace_afterCreds env email plugins hreach
  have hg : env.gmailBuildOk = true := by
    simp [reachesActions] at hreach; tauto
  have hr1 := runActions_events env email plugins false
  have hkeep : (runActions env email plugins false).2 =
      plugins.any (fun p => !env.runRaises p.name && p.keepOpenAfterRun) := by
    rw [runActions_keep]; simp
  have htr : process_one_account env email plugins =
      pre ++ ((runActions env email plugins false).1 ++
        (if plugins.any (fun p => !env.runRaises p.name && p.keepOpenAfterRun)
          then [Ev.keptOpen email]
          else [Ev.releaseSession email, Ev.note "[SESSION] closed"])) := by
    rw [hdec, afterCreds_unfold env email plugins _ hg, hreq, hkeep]
    simp
  have hnp1 : Ev.releaseSession email ∉ pre := by
    intro h; rcases hpre _ h with h' | h' | ⟨m, h'⟩ <;> simp at h'
  have hnp2 : Ev.keptOpen email ∉ pre := by
    intro h; rcases hpre _ h with h' | h' | ⟨m, h'⟩ <;> simp at h'
  have hnr1 : Ev.releaseSession email ∉ (runActions env email plugins false).1 := by
    intro h; rcases hr1 _ h with ⟨s, h' | h'⟩ <;> simp at h'
  have hnr2 : Ev.keptOpen email ∉ (runActions env email plugins false).1 := by
    intro h; rcases hr1 _ h with ⟨s, h' | h'⟩ <;> simp at h'
  constructor <;> intro hany <;> rw [htr, hany] <;> constructor
  · simp
  · intro hmem
    simp [List.mem_append] at hmem
    tauto
  · simp
  · intro hmem
    simp [List.mem_append] at hmem
    tauto

/-- C5 (witness): one chrome-group plugin with `keep_open_after_run`
that runs successfully; the session is kept open, not released. -/
theorem c5_keep_open_witness :
    requiresChrome [PluginM.mk "Open Gmail UI (always)" "chrome" true] = true ∧
    reachesActions (AccountEnv.mk true true true true true (fun _ => false))
      [PluginM.mk "Open Gmail UI (always)" "chrome" true] = true ∧
    ([PluginM.mk "Open Gmail UI (always)" "chrome" true].any
        (fun p => !(AccountEnv.mk true true true true true (fun _ => false)).runRaises p.name
          && p.keepOpenAfterRun) = true →
      Ev.keptOpen "u" ∈ process_one_account
        (AccountEnv.mk true true true true true (fun _ => false)) "u"
        [PluginM.mk "Open Gmail UI (always)" "chrome" true] ∧
      Ev.releaseSession "u" ∉ process_one_account
        (AccountEnv.mk true true true true true (fun _ => false)) "u"
        [PluginM.mk "Open Gmail UI (always)" "chrome" true]) :=
  ⟨rfl, rfl,
    (c5_keep_open (AccountEnv.mk true true true true true (fun _ => false)) "u"
      [PluginM.mk "Open Gmail UI (always)" "chrome" true] rfl rfl).1⟩

/-- C6: in a batch run, every enabled action of every account that
reaches the action loop is attempted — an action that raises is caught
and recorded as failed, and neither the later actions of that account
nor any other account's actions are lost. -/
theorem c6_action_failure_isolated (accounts : List String)
    (enabled : List PluginM) (envOf : String → AccountEnv)
    (email : String) (p : PluginM)
    (hacc : email ∈ accounts) (hp : p ∈ enabled)
    (hreach : reachesActions (envOf email) enabled = true) :
    Ev.runAction email p.name ∈ run_processing_parallel accounts enabled envOf ∧
    ((envOf email).runRaises p.name = true →
      Ev.actionFailed email p.name ∈ run_processing_parallel accounts enabled envOf) := by
  have hne : accounts.isEmpty = false := by
    cases accounts
    · cases hacc
    · rfl
  have hne2 : enabled.isEmpty = false := by
    cases enabled
    · cases hp
    · rfl
  obtain ⟨pre, hdec, hpre⟩ := process_trace_afterCreds (envOf email) email enabled hreach
  have hg : (envOf email).gmailBuildOk = true := by
    simp [reachesActions] at hreach; tauto
  have hmem := runActions_attempts (envOf email) email enabled false p hp
  have hsub : ∀ e, e ∈ (runActions (envOf email) email enabled false).1 →
      e ∈ process_one_account (envOf email) email enabled := by
    intro e he
    rw [hdec, afterCreds_unfold _ _ _ _ hg]
    simp [List.mem_append]
    tauto
  have hlift : ∀ e, e ∈ process_one_account (envOf email) email enabled →
      e ∈ run_processing_parallel accounts enabled envOf := by
    intro e he
    simp [run_processing_parallel, hne, hne2, List.mem_flatten]
    exact ⟨email, hacc, he⟩
  exact ⟨hlift _ (hsub _ hmem.1), fun hr => hlift _ (hsub _ (hmem.2 hr))⟩

/-- C6 (witness): two accounts, two actions; the first account's first
action raises, yet the second action and the other account's actions
all appear in the batch trace. -/
theorem c6_action_failure_witness :
    "a" ∈ ["a", "b"] ∧
    PluginM.mk "Archive" "api" false ∈
      [PluginM.mk "Mark as read" "api" false, PluginM.mk "Archive" "api" false] ∧
    reachesActions (AccountEnv.mk false true true true true (fun n => n == "Mark as read"))
      [PluginM.mk "Mark as read" "api" false, PluginM.mk "Archive" "api" false] = true ∧
    Ev.runAction "a" "Archive" ∈ run_processing_parallel ["a", "b"]
      [PluginM.mk "Mark as read" "api" false, PluginM.mk "Archive" "api" false]
      (fun _ => AccountEnv.mk false true true true true (fun n => n == "Mark as read")) :=
  ⟨by decide, by decide, rfl,
    (c6_action_failure_isolated ["a", "b"]
      [PluginM.mk "Mark as read" "api" false, PluginM.mk "Archive" "api" false]
      (fun _ => AccountEnv.mk false true true true true (fun n => n == "Mark as read"))
      "a" (PluginM.mk "Archive" "api" false) (by decide) (by decide) rfl).1⟩

/-- C9: if no enabled action is in the chrome group, then over the
whole batch no browser session is ever acquired and no OAuth flow is
ever driven; every account whose persisted credentials load (and whose
service builds) still runs all its actions. -/
theorem c9_no_chrome_no_session (accounts : List String)
    (enabled : List PluginM) (envOf : String → AccountEnv)
    (hng : ∀ p ∈ enabled, p.group ≠ "chrome") :
    (∀ e, Ev.startChrome e ∉ run_processing_parallel accounts enabled envOf) ∧
    (∀ e, Ev.oauthFlow e ∉ run_processing_parallel accounts enabled envOf) ∧
    (∀ email ∈ accounts, (envOf email).credsOk = true →
      (envOf email).gmailBuildOk = true → ∀ p ∈ enabled,
        Ev.runAction email p.name ∈ run_processing_parallel accounts enabled envOf) := by
  have hreq : requiresChrome enabled = false := by
    rw [requiresChrome, List.any_eq_false]
    intro p hp
    simpa using hng p hp
  have hnostart : ∀ e' email env,
      Ev.startChrome e' ∉ process_one_account env email enabled ∧
      Ev.oauthFlow e' ∉ process_one_account env email enabled :=
    fun e' email env => no_session_events env email e' enabled hreq
  refine ⟨?_, ?_, ?_⟩
  · intro e hmem
    unfold run_processing_parallel at hmem
    split_ifs at hmem with h1 h2
    · simp at hmem
    · simp at hmem
    · simp [List.mem_flatten] at hmem
      rcases hmem with ⟨email, _, hmem⟩
      exact (hnostart e email (envOf email)).1 hmem
  · intro e hmem
    unfold run_processing_parallel at hmem
    split_ifs at hmem with h1 h2
    · simp at hmem
    · simp at hmem
    · simp [List.mem_flatten] at hmem
      rcases hmem with ⟨email, _, hmem⟩
      exact (hnostart e email (envOf email)).2 hmem
  · intro email hacc hcreds hgb p hp
    have hne : accounts.isEmpty = false := by
      cases accounts
      · cases hacc
      · rfl
    have hne2 : enabled.isEmpty = false := by
      cases enabled
      · cases hp
      · rfl
    have hreach : reachesActions (envOf email) enabled = true := by
      simp [reachesActions, hreq, hcreds, hgb]
    obtain ⟨pre, hdec, hpre⟩ :=
      process_trace_afterCreds (envOf email) email enabled hreach
    have hmem := runActions_attempts (envOf email) email enabled false p hp
    have hsub : Ev.runAction email p.name ∈
        process_one_account (envOf email) email enabled := by
      rw [hdec, afterCreds_unfold _ _ _ _ hgb]
      simp [List.mem_append]
      tauto
    simp [run_processing_parallel, hne, hne2, List.mem_flatten]
    exact ⟨email, hacc, hsub⟩

/-- C9 (witness): two accounts with only an api-group action enabled —
no session acquisition event anywhere, and both accounts run the
action off persisted credentials. -/
theorem c9_no_chrome_witness :
    (∀ p ∈ [PluginM.mk "Archive" "api" false], p.group ≠ "chrome") ∧
    (∀ e, Ev.startChrome e ∉ run_processing_parallel ["a", "b"]
      [PluginM.mk "Archive" "api" false]
      (fun _ => AccountEnv.mk false true true true true (fun _ => false))) :=
  ⟨by decide,
    (c9_no_chrome_no_session ["a", "b"] [PluginM.mk "Archive" "api" false]
      (fun _ => AccountEnv.mk false true true true true (fun _ => false))
      (by decide)).1⟩

end Manager
